import Mathlib

/-!
Verification development for a multi-tenant medical-record backend
(FastAPI + SQLAlchemy).  The Python sources under `app/` are shallowly
embedded: ORM rows become structures, the database session becomes an
explicit `Store`/`Session` pair, HTTP exceptions and unhandled Python
exceptions become an explicit error type, and each endpoint function is
translated statement by statement.  UUID primary keys are modelled as
opaque naturals; timestamps as naturals.
-/

set_option autoImplicit false

deriving instance DecidableEq for Except

namespace Uprm

/-! ## Data model (app/db/models.py) -/

/-- Row of the `users` table (`models.User`): id (UUID, modelled as `Nat`),
unique email, password digest, and a role string (one of "Patient",
"Doctor", "Hospital Admin", stored verbatim). -/
structure UserRow where
  id : Nat
  email : String
  passwordHash : List Char
  role : String
  deriving Repr, DecidableEq

/-- Row of `patient_profiles` (`models.PatientProfile`), keyed by `user_id`. -/
structure PatientProfileRow where
  userId : Nat
  firstName : String
  lastName : String
  dateOfBirth : Option String := none
  gender : Option String := none
  bloodType : Option String := none
  contactNumber : Option String := none
  address : Option String := none
  deriving Repr, DecidableEq

/-- Row of `doctors` (`models.Doctor`), keyed by `user_id`, carrying the
scoping `hospital_id`. -/
structure DoctorRow where
  userId : Nat
  hospitalId : Nat
  specialty : String
  licenseNumber : String
  contactNumber : Option String := none
  deriving Repr, DecidableEq

/-- Row of `hospital_admins` (`models.HospitalAdmin`), keyed by `user_id`,
carrying the scoping `hospital_id`. -/
structure HospitalAdminRow where
  userId : Nat
  hospitalId : Nat
  jobTitle : Option String := none
  deriving Repr, DecidableEq

/-- Row of `hospitals` (`models.Hospital`). -/
structure HospitalRow where
  id : Nat
  name : String
  address : String
  contactInfo : Option String := none
  isActive : Bool := true
  deriving Repr, DecidableEq

/-- Medication entry of the `medications` JSONB column
(`schemas.record.Medication`). -/
structure Medication where
  name : String
  dosage : String
  frequency : Option String := none
  deriving Repr, DecidableEq

/-- Row of `medical_records` (`models.MedicalRecord`). -/
structure MedicalRecordRow where
  id : Nat
  patientId : Nat
  doctorId : Nat
  hospitalId : Nat
  dateOfVisit : Nat
  chiefComplaint : Option String := none
  diagnosis : String
  treatmentSummary : Option String := none
  medications : Option (List Medication) := none
  notes : Option String := none
  deriving Repr, DecidableEq

/-- The committed contents of the database: one list per table that the
verified endpoints touch, plus the id sequences (`nextUserId`,
`nextRecordId`) and the clock used for the `func.now()` column default. -/
structure Store where
  users : List UserRow := []
  patientProfiles : List PatientProfileRow := []
  doctors : List DoctorRow := []
  hospitalAdmins : List HospitalAdminRow := []
  hospitals : List HospitalRow := []
  medicalRecords : List MedicalRecordRow := []
  nextUserId : Nat := 1
  nextRecordId : Nat := 1
  now : Nat := 0
  deriving Repr, DecidableEq

/-! ## Error model

HTTP error responses raised as `fastapi.HTTPException`, and the Python
exceptions that escape the endpoints unhandled (surfaced by FastAPI as a
500 response, outside the documented error taxonomy). -/

/-- An `HTTPException(status_code, detail)` raised by an endpoint or a
dependency.  Status codes appear as constructor names; f-string details
are abbreviated to a constant where interpolation occurs. -/
inductive HttpError where
  | badRequest (detail : String)
  | unauthorized (detail : String)
  | forbidden (detail : String)
  | notFound (detail : String)
  deriving Repr, DecidableEq

/-- Outcome of running one endpoint in Python terms: either an
`HTTPException` (a taxonomy outcome), or an exception that no handler
catches — `ValueError` (from `uuid.UUID` or `crud.user.create_user`),
`AttributeError` (attribute access on `None`), `TypeError` (unexpected
keyword arguments to a model constructor), or a pydantic
`ValidationError` (from `model_validate`). -/
inductive PyError where
  | http (e : HttpError)
  | valueError (msg : String)
  | attributeErrorNoneType
  | typeError
  | validationError
  deriving Repr, DecidableEq

/-! ## Credential store (app/core/security.py)

Passwords are modelled as lists of unicode scalar values (`List Char`),
i.e. the Python `str`; digests as `List Char`.  The expression
`password.encode("utf-8")[:72].decode("utf-8", errors="ignore")` keeps
the longest prefix of characters whose UTF-8 encodings fit in 72 bytes:
the first 72 bytes are the encodings of that prefix followed by the
leading bytes of one split multi-byte character, and those leading bytes
form an invalid sequence which errors="ignore" drops. -/

/-- Number of bytes in the UTF-8 encoding of one scalar value. -/
def utf8CharLen (c : Char) : Nat :=
  if c.toNat < 0x80 then 1
  else if c.toNat < 0x800 then 2
  else if c.toNat < 0x10000 then 3
  else 4

/-- Total UTF-8 byte length of a string, `len(s.encode("utf-8"))`. -/
def utf8ByteLen (s : List Char) : Nat :=
  (s.map utf8CharLen).sum

/-- Embeds `s.encode("utf-8")[:budget].decode("utf-8", errors="ignore")`:
the longest character prefix whose UTF-8 encoding fits in `budget` bytes
(see the section comment for why the split character is dropped). -/
def truncateBytes (budget : Nat) : List Char → List Char
  | [] => []
  | c :: cs =>
    if utf8CharLen c ≤ budget then c :: truncateBytes (budget - utf8CharLen c) cs
    else []

/-- Error raised by passlib. `CryptContext.verify` raises
`UnknownHashError` (a `ValueError` subclass) when the supplied hash
string is not recognizable by any configured scheme — with
`schemes=["bcrypt"]`, whenever the digest is not a well-formed bcrypt
hash (including the empty string).  It never returns `False` for such
digests. -/
inductive PasslibError where
  | unknownHash
  deriving Repr, DecidableEq

/-- Model of `passlib.context.CryptContext(schemes=["bcrypt"])`.  The
bcrypt primitive itself is abstract data (`hashFn`, `verifyFn`,
`identify`) constrained by the documented behaviour of passlib/bcrypt:
a produced hash is always identifiable as bcrypt; verifying a password
of at most 72 UTF-8 bytes against its own hash succeeds (72 bytes is
the bcrypt input bound); the empty string is not an identifiable hash. -/
structure CryptContextModel where
  hashFn : List Char → List Char
  verifyFn : List Char → List Char → Bool
  identify : List Char → Bool
  identify_hashFn : ∀ s, identify (hashFn s) = true
  verifyFn_hashFn : ∀ s, utf8ByteLen s ≤ 72 → verifyFn s (hashFn s) = true
  identify_nil : identify [] = false

/-- Embeds `pwd_context.verify(secret, hash)`: passlib first identifies
the hash among the configured schemes, raising `UnknownHashError` when
identification fails, and only then runs the bcrypt check. -/
def pwdContextVerify (ctx : CryptContextModel) (secret digest : List Char) :
    Except PasslibError Bool :=
  if ctx.identify digest then .ok (ctx.verifyFn secret digest)
  else .error .unknownHash

/-- Embeds `security.verify_password`: re-applies the truncation used at
hash time (`plain_password.encode("utf-8")[:72].decode("utf-8",
errors="ignore")`) and calls `pwd_context.verify` on the truncated
password; nothing catches a passlib error. -/
def verify_password (ctx : CryptContextModel) (plainPassword digest : List Char) :
    Except PasslibError Bool :=
  pwdContextVerify ctx (truncateBytes 72 plainPassword) digest

/-- Embeds `security.get_password_hash`: truncates the password to 72
UTF-8 bytes (decoding with errors="ignore") and hashes the truncated
string. -/
def get_password_hash (ctx : CryptContextModel) (password : List Char) : List Char :=
  ctx.hashFn (truncateBytes 72 password)

/-- A concrete executable instance of `CryptContextModel`, witnessing
that the bcrypt interface specification is satisfiable: the digest of
`s` is the marker `$2b$` followed by `s`, identification checks the
marker. -/
def refCryptContext : CryptContextModel where
  hashFn s := '$' :: '2' :: 'b' :: '$' :: s
  verifyFn s h := h == '$' :: '2' :: 'b' :: '$' :: s
  identify h := h.take 4 == ['$', '2', 'b', '$']
  identify_hashFn s := by simp [List.take]
  verifyFn_hashFn s _ := by simp
  identify_nil := by simp [List.take]

/-! ## Storage queries (app/crud and inline db.query calls)

Each `db.query(Model).filter(...).first()` becomes `List.find?` on the
corresponding table of the committed store. -/

/-- Embeds `db.query(models.User).filter(models.User.id == uid).first()`
(crud.user.get_user_by_id and the lookup in get_current_user_and_role). -/
def findUserById (db : Store) (uid : Nat) : Option UserRow :=
  db.users.find? (fun u => u.id == uid)

/-- Embeds `crud.user.get_user_by_email`. -/
def get_user_by_email (db : Store) (email : String) : Option UserRow :=
  db.users.find? (fun u => u.email == email)

/-- Embeds `db.query(models.PatientProfile).filter(PatientProfile.user_id
== uid).first()`. -/
def findPatientProfile (db : Store) (uid : Nat) : Option PatientProfileRow :=
  db.patientProfiles.find? (fun p => p.userId == uid)

/-- Embeds `db.query(models.Doctor).filter(Doctor.user_id ==
uid).first()`. -/
def findDoctorProfile (db : Store) (uid : Nat) : Option DoctorRow :=
  db.doctors.find? (fun d => d.userId == uid)

/-- Embeds `db.query(models.HospitalAdmin).filter(HospitalAdmin.user_id
== uid).first()`. -/
def findAdminProfile (db : Store) (uid : Nat) : Option HospitalAdminRow :=
  db.hospitalAdmins.find? (fun a => a.userId == uid)

/-- Embeds `crud.hospital.get_hospital`. -/
def get_hospital (db : Store) (hospitalId : Nat) : Option HospitalRow :=
  db.hospitals.find? (fun h => h.id == hospitalId)

/-- Embeds `crud.record.get_record_by_id`. -/
def get_record_by_id (db : Store) (recordId : Nat) : Option MedicalRecordRow :=
  db.medicalRecords.find? (fun r => r.id == recordId)

/-- Insertion step for the `order_by(date_of_visit.desc())` clause:
records with a later visit date come first. -/
def insertByDateDesc (r : MedicalRecordRow) :
    List MedicalRecordRow → List MedicalRecordRow
  | [] => [r]
  | x :: xs =>
    if r.dateOfVisit ≤ x.dateOfVisit then x :: insertByDateDesc r xs
    else r :: x :: xs

/-- Sorts records by descending visit date (order_by clause of
`crud.record.get_patient_records`). -/
def sortByDateDesc (l : List MedicalRecordRow) : List MedicalRecordRow :=
  l.foldr insertByDateDesc []

/-- Embeds `crud.record.get_patient_records`: filter by patient, order
by visit date descending, then offset/limit (defaults 0/100). -/
def get_patient_records (db : Store) (patientId : Nat)
    (skip : Nat := 0) (limit : Nat := 100) : List MedicalRecordRow :=
  (((sortByDateDesc (db.medicalRecords.filter
      (fun r => r.patientId == patientId)))).drop skip).take limit

/-! ## Token verification and role gate (app/core/dependencies.py)

The call `jwt.decode(token, SECRET_KEY, algorithms=[ALGORITHM])` is
modelled by its outcome: python-jose raises a `JWTError` subclass on a
signature mismatch, a structurally malformed token, or an expired `exp`
claim, and otherwise returns the signed payload, from which the code
reads the optional claims `sub` and `role`.  UUID strings are abstracted
as decimal numerals over the opaque `Nat` ids: `uuid.UUID(s)` succeeds
exactly on well-formed UUID strings — here, non-empty digit strings —
and raises `ValueError` otherwise. -/

/-- Outcome of `jwt.decode` on the presented bearer token. -/
inductive JwtDecode where
  | sigMismatch
  | malformedToken
  | expired
  | payload (sub : Option (List Char)) (role : Option String)
  deriving Repr, DecidableEq

/-- Embeds `uuid.UUID(user_id_str)` under the decimal abstraction of
UUID strings: parses a non-empty all-digit string, otherwise the Python
call raises `ValueError`. -/
def parseUUIDStr (s : List Char) : Option Nat :=
  if !s.isEmpty && s.all Char.isDigit then
    some (s.foldl (fun n c => 10 * n + (c.toNat - 48)) 0)
  else none

/-- Rendering of an id as its token subject string,
`str(user.id)` in `create_access_token`. -/
def renderUUIDStr (n : Nat) : List Char :=
  (Nat.toDigits 10 n)

/-- The single `credentials_exception` of
`dependencies.get_current_user_and_role`, raised for every
authentication failure. -/
def credentialsException : PyError :=
  .http (.unauthorized "Could not validate credentials")

/-- Embeds `dependencies.get_current_user_and_role`.  The `try` block
catches only `JWTError`; the `HTTPException` for a missing `sub` or
`role` claim propagates unchanged, and the `ValueError` from
`uuid.UUID` on a non-UUID subject is caught by nothing. -/
def get_current_user_and_role (db : Store) (decoded : JwtDecode) :
    Except PyError UserRow :=
  match decoded with
  | .sigMismatch => .error credentialsException
  | .malformedToken => .error credentialsException
  | .expired => .error credentialsException
  | .payload sub role =>
    match sub, role with
    | some s, some _ =>
      match parseUUIDStr s with
      | none => .error (.valueError "badly formed hexadecimal UUID string")
      | some uid =>
        match findUserById db uid with
        | none => .error credentialsException
        | some user => .ok user
    | _, _ => .error credentialsException

/-- Embeds the checker produced by `dependencies.require_role`; the
f-string detail naming the rejected role is abbreviated to a constant. -/
def role_checker (allowedRoles : List String) (currentUser : UserRow) :
    Except PyError UserRow :=
  if allowedRoles.contains currentUser.role then .ok currentUser
  else .error (.http (.forbidden "User role is not authorized for this action."))

/-! ## Session model (app/db/database.py, sqlalchemy semantics)

A request-scoped session: `db.add` appends to pending rows, `db.flush`
makes the id sequence assignment visible (ids are assigned from
`nextUserId` at add time here, and the sequence advance survives a
rollback, as database sequences do), `db.commit` merges pending rows
into the committed store, and `get_db` finally runs `db.close()`, which
discards pending rows that were never committed. -/

/-- An open SQLAlchemy session over a committed store. -/
structure Session where
  base : Store
  pendingUsers : List UserRow := []
  pendingPatients : List PatientProfileRow := []
  pendingDoctors : List DoctorRow := []
  pendingAdmins : List HospitalAdminRow := []
  nextUserId : Nat
  deriving Repr, DecidableEq

/-- Opens the session `get_db` hands to an endpoint. -/
def Session.start (db : Store) : Session :=
  { base := db, nextUserId := db.nextUserId }

/-- Embeds `db.commit()`: pending rows become committed. -/
def Session.commit (s : Session) : Session :=
  { base :=
      { s.base with
        users := s.base.users ++ s.pendingUsers
        patientProfiles := s.base.patientProfiles ++ s.pendingPatients
        doctors := s.base.doctors ++ s.pendingDoctors
        hospitalAdmins := s.base.hospitalAdmins ++ s.pendingAdmins
        nextUserId := s.nextUserId }
    pendingUsers := []
    pendingPatients := []
    pendingDoctors := []
    pendingAdmins := []
    nextUserId := s.nextUserId }

/-- Embeds the `finally: db.close()` of `get_db`: uncommitted pending
rows are discarded; the id sequence advance persists. -/
def Session.close (s : Session) : Store :=
  { s.base with nextUserId := s.nextUserId }

/-! ## Request schemas (app/schemas) -/

/-- Embeds `schemas.user.UserCreate` (email, password of at least 8
characters — length validation happens in pydantic before the endpoint
runs — and a role string). -/
structure UserCreate where
  email : String
  password : List Char
  role : String
  deriving Repr, DecidableEq

/-- Embeds `schemas.user.PatientProfileCreate`. -/
structure PatientProfileCreate where
  firstName : String
  lastName : String
  dateOfBirth : Option String := none
  gender : Option String := none
  bloodType : Option String := none
  contactNumber : Option String := none
  address : Option String := none
  deriving Repr, DecidableEq

/-- Embeds `schemas.user.DoctorCreate`. -/
structure DoctorCreate where
  specialty : String
  licenseNumber : String
  contactNumber : Option String := none
  hospitalId : Nat
  deriving Repr, DecidableEq

/-- Embeds `schemas.user.HospitalAdminCreate`. -/
structure HospitalAdminCreate where
  jobTitle : Option String := none
  hospitalId : Nat
  deriving Repr, DecidableEq

/-- Embeds the `Union[DoctorCreate, HospitalAdminCreate]` body of
`create_staff_user`. -/
inductive StaffProfileIn where
  | doctorIn (d : DoctorCreate)
  | adminIn (a : HospitalAdminCreate)
  deriving Repr, DecidableEq

/-- The `hospital_id` field present in both staff profile schemas. -/
def StaffProfileIn.hospitalId : StaffProfileIn → Nat
  | .doctorIn d => d.hospitalId
  | .adminIn a => a.hospitalId

/-- Embeds `schemas.record.MedicalRecordCreate`: the client may supply
the patient id and the clinical fields, and nothing else — in
particular the schema has no `doctor_id` or `hospital_id` field. -/
structure MedicalRecordCreate where
  chiefComplaint : Option String := none
  diagnosis : String
  treatmentSummary : Option String := none
  medications : Option (List Medication) := none
  notes : Option String := none
  patientId : Nat
  deriving Repr, DecidableEq

/-- Embeds `schemas.hospitals.HospitalUpdate`; `name` and `address` are
required fields, the two optional fields distinguish unset (`none`,
excluded by `model_dump(exclude_unset=True)`) from explicitly set. -/
structure HospitalUpdate where
  name : String
  address : String
  contactInfo : Option (Option String) := none
  isActive : Option Bool := none
  deriving Repr, DecidableEq

/-- Result dict passed by each caller as `profile_data` to
`crud.user.create_user` (the `model_dump` of one of the three profile
schemas). -/
inductive ProfileData where
  | patientData (p : PatientProfileCreate)
  | doctorData (d : DoctorCreate)
  | adminData (a : HospitalAdminCreate)
  deriving Repr, DecidableEq

/-- The `profile_in.model_dump(exclude_unset=True)` performed by
`create_staff_user` before calling `crud.user.create_user`. -/
def StaffProfileIn.toProfileData : StaffProfileIn → ProfileData
  | .doctorIn d => .doctorData d
  | .adminIn a => .adminData a

/-! ## crud.user.create_user -/

/-- Embeds `crud.user.create_user`: hashes the password, adds the `User`
row and flushes (the id is assigned from the sequence), then builds the
profile row dispatching on `user.role` — `models.XxxProfile(
**profile_data)` raises `TypeError` when the dict shape does not match
the constructor of the dispatched model, and an unknown role raises
`ValueError("Invalid user role.")` — and only then commits.  On either
raise the session still holds the uncommitted user row, which
`get_db`'s `close` will discard. -/
def create_user (ctx : CryptContextModel) (sess : Session)
    (user : UserCreate) (profileData : ProfileData) :
    Except PyError UserRow × Session :=
  let hashedPassword := get_password_hash ctx user.password
  let dbUser : UserRow :=
    { id := sess.nextUserId
      email := user.email
      passwordHash := hashedPassword
      role := user.role }
  let flushed : Session :=
    { sess with
      pendingUsers := sess.pendingUsers ++ [dbUser]
      nextUserId := sess.nextUserId + 1 }
  if user.role == "Patient" then
    match profileData with
    | .patientData p =>
      let row : PatientProfileRow :=
        { userId := dbUser.id
          firstName := p.firstName
          lastName := p.lastName
          dateOfBirth := p.dateOfBirth
          gender := p.gender
          bloodType := p.bloodType
          contactNumber := p.contactNumber
          address := p.address }
      (.ok dbUser,
        Session.commit { flushed with pendingPatients := flushed.pendingPatients ++ [row] })
    | _ => (.error .typeError, flushed)
  else if user.role == "Doctor" then
    match profileData with
    | .doctorData d =>
      let row : DoctorRow :=
        { userId := dbUser.id
          hospitalId := d.hospitalId
          specialty := d.specialty
          licenseNumber := d.licenseNumber
          contactNumber := d.contactNumber }
      (.ok dbUser,
        Session.commit { flushed with pendingDoctors := flushed.pendingDoctors ++ [row] })
    | _ => (.error .typeError, flushed)
  else if user.role == "Hospital Admin" then
    match profileData with
    | .adminData a =>
      let row : HospitalAdminRow :=
        { userId := dbUser.id
          hospitalId := a.hospitalId
          jobTitle := a.jobTitle }
      (.ok dbUser,
        Session.commit { flushed with pendingAdmins := flushed.pendingAdmins ++ [row] })
    | _ => (.error .typeError, flushed)
  else
    (.error (.valueError "Invalid user role."), flushed)

/-- `crud.user.create_user` run under `get_db`: a fresh session is
opened for the request and unconditionally closed afterwards
(`finally: db.close()`), so uncommitted rows are discarded on every
error path. -/
def create_user_via_get_db (ctx : CryptContextModel) (db : Store)
    (user : UserCreate) (profileData : ProfileData) :
    Except PyError UserRow × Store :=
  let r := create_user ctx (Session.start db) user profileData
  (r.1, r.2.close)

/-! ## Endpoints: records (app/api/endpoints/records.py) -/

/-- Embeds `crud.record.create_medical_record`: the stored row copies
the clinical fields and `patient_id` from the request schema, takes
`doctor_id` and `hospital_id` from the keyword arguments, lets the
column default fill `date_of_visit`, and is committed. -/
def create_medical_record (db : Store) (record : MedicalRecordCreate)
    (doctorId : Nat) (hospitalId : Nat) : MedicalRecordRow × Store :=
  let row : MedicalRecordRow :=
    { id := db.nextRecordId
      patientId := record.patientId
      doctorId := doctorId
      hospitalId := hospitalId
      dateOfVisit := db.now
      chiefComplaint := record.chiefComplaint
      diagnosis := record.diagnosis
      treatmentSummary := record.treatmentSummary
      medications := record.medications
      notes := record.notes }
  (row,
    { db with
      medicalRecords := db.medicalRecords ++ [row]
      nextRecordId := db.nextRecordId + 1 })

/-- Embeds the handler body of `create_record` (POST /records/), after
the `DoctorUser` dependency has admitted `currentDoctor`: a missing
target patient is a 404; then `doctor_details.hospital_id` is read from
the query result without a `None` guard (an `AttributeError` escapes if
the doctor profile row is absent), and the record is created with the
derived `doctor_id` and `hospital_id`. -/
def create_record (db : Store) (recordIn : MedicalRecordCreate)
    (currentDoctor : UserRow) : Except PyError MedicalRecordRow × Store :=
  if (findPatientProfile db recordIn.patientId).isNone then
    (.error (.http (.notFound "Patient not found")), db)
  else
    match findDoctorProfile db currentDoctor.id with
    | none => (.error .attributeErrorNoneType, db)
    | some doctorDetails =>
      let r := create_medical_record db recordIn currentDoctor.id doctorDetails.hospitalId
      (.ok r.1, r.2)

/-- The full POST /records/ route: the `DoctorUser` dependency
(`require_role(["Doctor"])`) runs before the handler body. -/
def create_record_endpoint (db : Store) (recordIn : MedicalRecordCreate)
    (currentUser : UserRow) : Except PyError MedicalRecordRow × Store :=
  match role_checker ["Doctor"] currentUser with
  | .error e => (.error e, db)
  | .ok currentDoctor => create_record db recordIn currentDoctor

/-- Embeds `read_record_detail` (GET /records/{record_id:int}); the
dependency is `AnyAuthenticatedUser`, so no role gate precedes the
body.  The existence check on the record runs before the patient scope
check. -/
def read_record_detail (db : Store) (recordId : Nat)
    (currentUser : UserRow) : Except PyError MedicalRecordRow :=
  match get_record_by_id db recordId with
  | none => .error (.http (.notFound "Medical Record not found."))
  | some dbRecord =>
    if currentUser.role == "Patient" && currentUser.id != dbRecord.patientId then
      .error (.http (.forbidden "Access denied."))
    else
      .ok dbRecord

/-- Embeds `read_patient_records` (GET /records/{patient_id:uuid}); the
dependency is `AnyAuthenticatedUser`.  The patient scope check runs
first; the existence check on the target patient profile runs second. -/
def read_patient_records (db : Store) (patientId : Nat)
    (currentUser : UserRow) : Except PyError (List MedicalRecordRow) :=
  if currentUser.role == "Patient" && currentUser.id != patientId then
    .error (.http (.forbidden "Patients can only view their own records."))
  else if (findPatientProfile db patientId).isNone then
    .error (.http (.notFound "Patient not found."))
  else
    .ok (get_patient_records db patientId)

/-! ## Endpoints: auth and users (app/api/endpoints/auth.py, users.py) -/

/-- Embeds `register_user` (POST /auth/register), the open registration
endpoint: rejects every role other than "Patient" with a 400 before any
database write, rejects a duplicate email with a 400, then creates the
user and patient profile through `crud.user.create_user`; the request
session is closed by `get_db` in every case. -/
def register_user (ctx : CryptContextModel) (db : Store)
    (userIn : UserCreate) (patientProfileIn : PatientProfileCreate) :
    Except PyError UserRow × Store :=
  let sess := Session.start db
  if userIn.role != "Patient" then
    (.error (.http (.badRequest "Public registration is only allowed for the Patient role.")),
      sess.close)
  else if (get_user_by_email db userIn.email).isSome then
    (.error (.http (.badRequest "Email already registered")), sess.close)
  else
    let r := create_user ctx sess userIn (.patientData patientProfileIn)
    (r.1, r.2.close)

/-- Embeds the handler body of `create_staff_user` (POST /users/),
after the `AdminUser` dependency has admitted `currentAdmin`: a
"Patient" role in the body is a 400, a duplicate email is a 400, then
`admin_details.hospital_id` is read without a `None` guard (an
`AttributeError` escapes if the admin profile row is absent), the
hospital scope check rejects a foreign `hospital_id` with a 403, and
finally `crud.user.create_user` runs. -/
def create_staff_user (ctx : CryptContextModel) (db : Store)
    (userIn : UserCreate) (profileIn : StaffProfileIn)
    (currentAdmin : UserRow) : Except PyError UserRow × Store :=
  let sess := Session.start db
  if userIn.role == "Patient" then
    (.error (.http (.badRequest "Use the auth register endpoint for patient sign-up.")),
      sess.close)
  else if (get_user_by_email db userIn.email).isSome then
    (.error (.http (.badRequest "Email already registered")), sess.close)
  else
    match findAdminProfile db currentAdmin.id with
    | none => (.error .attributeErrorNoneType, sess.close)
    | some adminDetails =>
      if profileIn.hospitalId != adminDetails.hospitalId then
        (.error (.http (.forbidden "Cannot create staff for another hospital.")),
          sess.close)
      else
        let r := create_user ctx sess userIn profileIn.toProfileData
        (r.1, r.2.close)

/-- The full POST /users/ route: the `AdminUser` dependency
(`require_role(["Hospital Admin"])`) runs before the handler body. -/
def create_staff_user_endpoint (ctx : CryptContextModel) (db : Store)
    (userIn : UserCreate) (profileIn : StaffProfileIn)
    (currentUser : UserRow) : Except PyError UserRow × Store :=
  match role_checker ["Hospital Admin"] currentUser with
  | .error e => (.error e, db)
  | .ok currentAdmin => create_staff_user ctx db userIn profileIn currentAdmin

/-- The sum type returned by `get_user_profile` — one of the three
schema shapes (each carries the fields of the underlying row). -/
inductive ProfileOut where
  | patientOut (p : PatientProfileRow)
  | doctorOut (d : DoctorRow)
  | adminOut (a : HospitalAdminRow)
  deriving Repr, DecidableEq

/-- Embeds the helper `get_user_profile` of users.py: a one-of-three
dispatch on `user.role`.  In each known-role branch the code calls
`Schema.model_validate(db_profile)` on the query result directly; when
the profile row is absent that argument is `None` and pydantic raises a
`ValidationError`, so `None` is returned only for a role outside the
three known roles. -/
def get_user_profile (db : Store) (user : UserRow) :
    Except PyError (Option ProfileOut) :=
  if user.role == "Patient" then
    match findPatientProfile db user.id with
    | none => .error .validationError
    | some p => .ok (some (.patientOut p))
  else if user.role == "Doctor" then
    match findDoctorProfile db user.id with
    | none => .error .validationError
    | some d => .ok (some (.doctorOut d))
  else if user.role == "Hospital Admin" then
    match findAdminProfile db user.id with
    | none => .error .validationError
    | some a => .ok (some (.adminOut a))
  else
    .ok none

/-- Embeds `read_current_user_profile` (GET /users/me/profile); the
dependency is `AnyAuthenticatedUser`.  A `None` profile is surfaced as
a 404; an exception from `get_user_profile` propagates. -/
def read_current_user_profile (db : Store) (currentUser : UserRow) :
    Except PyError ProfileOut :=
  match get_user_profile db currentUser with
  | .error e => .error e
  | .ok none => .error (.http (.notFound "User profile not found"))
  | .ok (some profile) => .ok profile

/-! ## Endpoints: hospitals (app/api/endpoints/hospitals.py) -/

/-- Embeds `crud.hospital.update_hospital`: applies the set fields of
the update schema to the row (`setattr` per key of
`model_dump(exclude_unset=True)`) and commits the replacement. -/
def update_hospital_crud (db : Store) (dbHospital : HospitalRow)
    (hospitalIn : HospitalUpdate) : HospitalRow × Store :=
  let updated : HospitalRow :=
    { dbHospital with
      name := hospitalIn.name
      address := hospitalIn.address
      contactInfo :=
        match hospitalIn.contactInfo with
        | none => dbHospital.contactInfo
        | some v => v
      isActive :=
        match hospitalIn.isActive with
        | none => dbHospital.isActive
        | some b => b }
  (updated,
    { db with
      hospitals := db.hospitals.map (fun h => if h.id == dbHospital.id then updated else h) })

/-- Embeds the handler body of `update_hospital` (PUT
/hospitals/{hospital_id}), after the `AdminUser` dependency has
admitted `currentAdmin`: a missing hospital is a 404; then
`admin_details.hospital_id` is read without a `None` guard (an
`AttributeError` escapes if the admin profile row is absent); a
mismatched hospital is a 403; otherwise the update is committed. -/
def update_hospital (db : Store) (hospitalId : Nat)
    (hospitalIn : HospitalUpdate) (currentAdmin : UserRow) :
    Except PyError HospitalRow × Store :=
  match get_hospital db hospitalId with
  | none => (.error (.http (.notFound "Hospital not found")), db)
  | some dbHospital =>
    match findAdminProfile db currentAdmin.id with
    | none => (.error .attributeErrorNoneType, db)
    | some adminDetails =>
      if adminDetails.hospitalId != hospitalId then
        (.error (.http (.forbidden "Cannot update another hospital data.")), db)
      else
        let r := update_hospital_crud db dbHospital hospitalIn
        (.ok r.1, r.2)

/-- The full PUT /hospitals/{hospital_id} route: the `AdminUser`
dependency runs before the handler body. -/
def update_hospital_endpoint (db : Store) (hospitalId : Nat)
    (hospitalIn : HospitalUpdate) (currentUser : UserRow) :
    Except PyError HospitalRow × Store :=
  match role_checker ["Hospital Admin"] currentUser with
  | .error e => (.error e, db)
  | .ok currentAdmin => update_hospital db hospitalId hospitalIn currentAdmin

/-! ## Concrete fixtures

A small populated database used by witnesses and counterexamples:
hospitals 1 and 2; patients Alice (id 1) and Bob (id 2); doctor Dana
(id 3) at hospital 1; admin Eve (id 4) at hospital 1; one medical
record (id 1) for Alice. -/

def hospA : HospitalRow := { id := 1, name := "General Hospital", address := "1 Main St" }

def hospB : HospitalRow := { id := 2, name := "City Hospital", address := "2 High St" }

def patAlice : UserRow :=
  { id := 1, email := "alice@example.com", passwordHash := [], role := "Patient" }

def patBob : UserRow :=
  { id := 2, email := "bob@example.com", passwordHash := [], role := "Patient" }

def docDana : UserRow :=
  { id := 3, email := "dana@example.com", passwordHash := [], role := "Doctor" }

def admEve : UserRow :=
  { id := 4, email := "eve@example.com", passwordHash := [], role := "Hospital Admin" }

def aliceProfile : PatientProfileRow := { userId := 1, firstName := "Alice", lastName := "Smith" }

def bobProfile : PatientProfileRow := { userId := 2, firstName := "Bob", lastName := "Jones" }

def danaProfile : DoctorRow :=
  { userId := 3, hospitalId := 1, specialty := "GP", licenseNumber := "LIC-1" }

def eveProfile : HospitalAdminRow := { userId := 4, hospitalId := 1 }

def rec1 : MedicalRecordRow :=
  { id := 1, patientId := 1, doctorId := 3, hospitalId := 1, dateOfVisit := 5, diagnosis := "flu" }

def baseStore : Store :=
  { users := [patAlice, patBob, docDana, admEve]
    patientProfiles := [aliceProfile, bobProfile]
    doctors := [danaProfile]
    hospitalAdmins := [eveProfile]
    hospitals := [hospA, hospB]
    medicalRecords := [rec1]
    nextUserId := 5
    nextRecordId := 2
    now := 10 }

/-- Like `baseStore` but the doctor profile row of Dana is missing. -/
def storeNoDoctorProfile : Store := { baseStore with doctors := [] }

/-- Like `baseStore` but the admin profile row of Eve is missing. -/
def storeNoAdminProfile : Store := { baseStore with hospitalAdmins := [] }

/-- Like `baseStore` but the patient profile row of Alice is missing. -/
def storeNoAliceProfile : Store := { baseStore with patientProfiles := [bobProfile] }

/-- An 80-character ASCII password, hence strictly longer than the
72-byte bcrypt truncation bound. -/
def longPassword : List Char := List.replicate 80 'a'

/-! ## Supporting lemmas -/

/-- Truncating to a byte budget never exceeds the budget. -/
theorem utf8ByteLen_truncateBytes_le (budget : Nat) (s : List Char) :
    utf8ByteLen (truncateBytes budget s) ≤ budget := by
  induction s generalizing budget with
  | nil => simp [truncateBytes, utf8ByteLen]
  | cons c cs ih =>
    simp only [truncateBytes]
    split
    · next h =>
      have := ih (budget - utf8CharLen c)
      simp only [utf8ByteLen, List.map_cons, List.sum_cons] at *
      omega
    · simp [utf8ByteLen]

/-- A `find?` that succeeds on the second list still succeeds on the
concatenation. -/
theorem find?_append_isSome {α : Type} (p : α → Bool) (l1 l2 : List α)
    (h : (List.find? p l2).isSome = true) :
    (List.find? p (l1 ++ l2)).isSome = true := by
  simp only [List.find?_isSome, List.mem_append] at h ⊢
  obtain ⟨x, hx, hpx⟩ := h
  exact ⟨x, Or.inr hx, hpx⟩

/-- A role gate that admits returns the very identity it was given. -/
theorem role_checker_ok (roles : List String) (u d : UserRow)
    (h : role_checker roles u = .ok d) : d = u := by
  simp only [role_checker] at h
  split at h
  · injection h with h1; exact h1.symm
  · simp at h

/-- A role gate whose allowed set contains the identity's role admits
it. -/
theorem role_checker_pass (roles : List String) (u : UserRow)
    (h : roles.contains u.role = true) : role_checker roles u = .ok u := by
  unfold role_checker
  rw [if_pos h]

/-! ## Claim C5 -/

/-- C5: for every password P, verify(P, hash(P)) returns true — for
every bcrypt backend satisfying the bcrypt interface specification and
every password, including passwords whose UTF-8 byte length exceeds the
72-byte truncation bound, because `get_password_hash` and
`verify_password` apply the same truncation
(`encode("utf-8")[:72].decode("utf-8", errors="ignore")`) before
calling into passlib.  The final two conjuncts exhibit this on a
concrete 80-byte password. -/
theorem C5_verify_of_hash_roundtrip :
    (∀ (ctx : CryptContextModel) (p : List Char),
      verify_password ctx p (get_password_hash ctx p) = .ok true) ∧
    72 < utf8ByteLen longPassword ∧
    verify_password refCryptContext longPassword
      (get_password_hash refCryptContext longPassword) = .ok true := by
  refine ⟨fun ctx p => ?_, by decide, by decide⟩
  unfold verify_password get_password_hash pwdContextVerify
  rw [ctx.identify_hashFn]
  simp [ctx.verifyFn_hashFn _ (utf8ByteLen_truncateBytes_le 72 p)]

/-! ## Claim C6 -/

/-- C6 counterexample: on the empty digest — a malformed stored digest —
`verify_password` does not return false: passlib's `CryptContext.verify`
raises `UnknownHashError` because the empty string is not identifiable
as a bcrypt hash, and `verify_password` catches nothing. -/
theorem C6_counterexample_empty_digest_raises :
    verify_password refCryptContext "password123".data [] = .error .unknownHash ∧
    verify_password refCryptContext "password123".data [] ≠ .ok false := by
  exact ⟨rfl, by decide⟩

/-- C6 amended: for every password and every stored digest that passlib
cannot identify as a bcrypt hash (non-bcrypt, corrupt, or empty),
`verify_password` raises passlib's `UnknownHashError` — it never
returns false for a malformed digest. -/
theorem C6_amended_malformed_digest_raises
    (ctx : CryptContextModel) (p d : List Char)
    (h : ctx.identify d = false) :
    verify_password ctx p d = .error .unknownHash := by
  simp [verify_password, pwdContextVerify, h]

/-- C6 amended witness: the amended statement at a concrete password and
the one-character digest `x`, which is not identifiable as bcrypt. -/
theorem C6_amended_malformed_digest_raises_witness :
    verify_password refCryptContext "hunter2xyz".data ['x'] = .error .unknownHash :=
  C6_amended_malformed_digest_raises refCryptContext "hunter2xyz".data ['x'] (by decide)

/-! ## Claim C4 -/

/-- C4: token verification and identity resolution fail closed and
uniformly — with one slip.  A signature mismatch, a structurally
malformed token, an expired token, a payload missing the sub or role
claim, and a subject id that no longer resolves to a stored identity
all yield the very same 401 `credentials_exception`, so those failure
classes are mutually indistinguishable to the caller and resolve
failure is never a 404.  But the final conjunct evaluates the code on a
validly signed, unexpired token whose sub claim is not a parseable UUID
string: `uuid.UUID` raises `ValueError`, which `except JWTError` does
not catch, so an unhandled exception (a 500) escapes instead of the
claimed uniform 401. -/
theorem C4_auth_fails_closed_except_uuid_parse :
    (∀ db : Store,
      get_current_user_and_role db .sigMismatch = .error credentialsException ∧
      get_current_user_and_role db .malformedToken = .error credentialsException ∧
      get_current_user_and_role db .expired = .error credentialsException) ∧
    (∀ (db : Store) (role : Option String),
      get_current_user_and_role db (.payload none role) = .error credentialsException) ∧
    (∀ (db : Store) (sub : Option (List Char)),
      get_current_user_and_role db (.payload sub none) = .error credentialsException) ∧
    (∀ (db : Store) (s : List Char) (r : String) (uid : Nat),
      parseUUIDStr s = some uid → findUserById db uid = none →
      get_current_user_and_role db (.payload (some s) (some r)) = .error credentialsException) ∧
    credentialsException = .http (.unauthorized "Could not validate credentials") ∧
    get_current_user_and_role baseStore (.payload (some ['a', 'b', 'c']) (some "Patient")) =
      .error (.valueError "badly formed hexadecimal UUID string") := by
  refine ⟨fun db => ⟨rfl, rfl, rfl⟩, fun db role => rfl,
    fun db sub => ?_, fun db s r uid hp hf => ?_, rfl, by decide⟩
  · cases sub <;> rfl
  · simp [get_current_user_and_role, hp, hf]

/-- C4 witness: the uniform 401 on an unresolvable subject — a token
whose subject 99 parses but matches no stored identity yields the
credentials exception, not a 404. -/
theorem C4_auth_fails_closed_except_uuid_parse_witness :
    get_current_user_and_role baseStore (.payload (some ['9', '9']) (some "Patient")) =
      .error credentialsException :=
  C4_auth_fails_closed_except_uuid_parse.2.2.2.1 baseStore ['9', '9'] "Patient" 99
    (by decide) (by decide)

/-! ## Claim C1 -/

/-- C1: whenever the POST /records/ route (role gate included) succeeds,
the stored record's `doctor_id` is the authenticated doctor's own
identity id and its `hospital_id` is the `hospital_id` of that doctor's
profile row — for every client-supplied request body
(`MedicalRecordCreate` carries no doctor or hospital field, and the
stored values are equal to the derived ones whatever the body
contains), and the record is appended to the store. -/
theorem C1_create_record_derives_doctor_and_hospital
    (db : Store) (recordIn : MedicalRecordCreate) (currentUser : UserRow)
    (newRecord : MedicalRecordRow) (db2 : Store)
    (h : create_record_endpoint db recordIn currentUser = (.ok newRecord, db2)) :
    newRecord.doctorId = currentUser.id ∧
    (∃ dd, findDoctorProfile db currentUser.id = some dd ∧
      newRecord.hospitalId = dd.hospitalId) ∧
    newRecord.patientId = recordIn.patientId ∧
    db2.medicalRecords = db.medicalRecords ++ [newRecord] := by
  simp only [create_record_endpoint] at h
  split at h
  · simp at h
  · rename_i d heq
    have hd : d = currentUser := by
      simp only [role_checker] at heq
      split at heq
      · injection heq with h1; exact h1.symm
      · simp at heq
    rw [hd] at h
    simp only [create_record] at h
    split at h
    · simp at h
    · split at h
      · simp at h
      · rename_i dd hdd
        simp only [create_medical_record] at h
        injection h with h1 h2
        injection h1 with h1
        subst h1; subst h2
        exact ⟨rfl, ⟨dd, hdd, rfl⟩, rfl, rfl⟩

/-- Request body used by the C1 witness. -/
def recBody : MedicalRecordCreate := { diagnosis := "flu", patientId := 1 }

/-- The record the C1 witness expects to be stored. -/
def recAfterC1 : MedicalRecordRow :=
  { id := 2, patientId := 1, doctorId := 3, hospitalId := 1, dateOfVisit := 10, diagnosis := "flu" }

/-- The store the C1 witness expects after creation. -/
def storeAfterC1 : Store :=
  { baseStore with
    medicalRecords := baseStore.medicalRecords ++ [recAfterC1]
    nextRecordId := 3 }

/-- C1 witness: doctor Dana (id 3, hospital 1) creating a record for
Alice — the stored record carries doctor_id 3 and hospital_id 1. -/
theorem C1_create_record_derives_doctor_and_hospital_witness :
    recAfterC1.doctorId = docDana.id ∧
    (∃ dd, findDoctorProfile baseStore docDana.id = some dd ∧
      recAfterC1.hospitalId = dd.hospitalId) ∧
    recAfterC1.patientId = recBody.patientId ∧
    storeAfterC1.medicalRecords = baseStore.medicalRecords ++ [recAfterC1] :=
  C1_create_record_derives_doctor_and_hospital baseStore recBody docDana recAfterC1 storeAfterC1
    (by decide)

/-! ## Claim C2 -/

/-- C2 counterexample: Bob, a Patient, requests the record list of
patient id 99, and no patient 99 exists — the claim states the outcome
is NotFound (404), but `read_patient_records` runs its scope check
before its existence check and answers Forbidden (403). -/
theorem C2_counterexample_scope_check_precedes_existence :
    patBob.role = "Patient" ∧
    findPatientProfile baseStore 99 = none ∧
    read_patient_records baseStore 99 patBob =
      .error (.http (.forbidden "Patients can only view their own records.")) ∧
    read_patient_records baseStore 99 patBob ≠
      .error (.http (.notFound "Patient not found.")) :=
  ⟨rfl, by decide, by decide, by decide⟩

/-- C2 amended: on the single-record endpoint the existence check
precedes the scope check — a missing record is a 404 for every caller,
and an existing record of another patient is a 403 for a Patient
caller.  On the per-patient list endpoint the scope check precedes the
existence check: a Patient requesting any other patient id receives
Forbidden whether or not that patient exists (existence of unrelated
users is never revealed), and NotFound for a missing patient is
returned exactly when the scope check does not reject (a non-Patient
caller, or the patient requesting their own id). -/
theorem C2_amended_existence_vs_scope_ordering :
    (∀ (db : Store) (rid : Nat) (u : UserRow),
      get_record_by_id db rid = none →
      read_record_detail db rid u = .error (.http (.notFound "Medical Record not found."))) ∧
    (∀ (db : Store) (rid : Nat) (u : UserRow) (r : MedicalRecordRow),
      get_record_by_id db rid = some r → u.role = "Patient" → u.id ≠ r.patientId →
      read_record_detail db rid u = .error (.http (.forbidden "Access denied."))) ∧
    (∀ (db : Store) (pid : Nat) (u : UserRow),
      u.role = "Patient" → u.id ≠ pid →
      read_patient_records db pid u =
        .error (.http (.forbidden "Patients can only view their own records."))) ∧
    (∀ (db : Store) (pid : Nat) (u : UserRow),
      ¬(u.role = "Patient" ∧ u.id ≠ pid) → findPatientProfile db pid = none →
      read_patient_records db pid u = .error (.http (.notFound "Patient not found."))) := by
  refine ⟨fun db rid u h => ?_, fun db rid u r hrec hrole hne => ?_,
    fun db pid u hrole hne => ?_, fun db pid u hn hprof => ?_⟩
  · simp [read_record_detail, h]
  · simp [read_record_detail, hrec, hrole, bne_iff_ne, hne]
  · simp [read_patient_records, hrole, bne_iff_ne, hne]
  · have hcond : (u.role == "Patient" && u.id != pid) = false := by
      by_cases hr : u.role = "Patient"
      · have hid : u.id = pid := by
          by_contra hne
          exact hn ⟨hr, hne⟩
        simp [hid]
      · simp [hr]
    simp [read_patient_records, hcond, hprof]

/-- C2 amended witness: all four orderings on the concrete store —
missing record is 404 to Bob; record 1 of Alice is 403 to Bob; the
record list of Alice is 403 to Bob; a missing patient is 404 to doctor
Dana. -/
theorem C2_amended_existence_vs_scope_ordering_witness :
    read_record_detail baseStore 99 patBob =
      .error (.http (.notFound "Medical Record not found.")) ∧
    read_record_detail baseStore 1 patBob = .error (.http (.forbidden "Access denied.")) ∧
    read_patient_records baseStore 1 patBob =
      .error (.http (.forbidden "Patients can only view their own records.")) ∧
    read_patient_records baseStore 99 docDana =
      .error (.http (.notFound "Patient not found.")) :=
  ⟨C2_amended_existence_vs_scope_ordering.1 baseStore 99 patBob (by decide),
   C2_amended_existence_vs_scope_ordering.2.1 baseStore 1 patBob rec1 (by decide) rfl (by decide),
   C2_amended_existence_vs_scope_ordering.2.2.1 baseStore 1 patBob rfl (by decide),
   C2_amended_existence_vs_scope_ordering.2.2.2 baseStore 99 docDana (by decide) (by decide)⟩

/-! ## Claim C3 -/

/-- Staff-creation body with an already-registered email, used by the
C3 counterexample. -/
def staffUserTakenEmail : UserCreate :=
  { email := "bob@example.com", password := "password123".data, role := "Doctor" }

/-- Staff profile body targeting hospital 2 (not the admin's). -/
def staffDoctorHospB : StaffProfileIn :=
  .doctorIn { specialty := "GP", licenseNumber := "LIC-2", hospitalId := 2 }

/-- C3 counterexample: admin Eve of hospital 1 creates a doctor for
hospital 2 — a scope violation — but the request body carries an
already-registered email, and `create_staff_user` checks the duplicate
email before the hospital scope, so the outcome is the 400 duplicate
error, not the Forbidden (403) the claim requires for every mismatch. -/
theorem C3_counterexample_duplicate_email_preempts_scope :
    admEve.role = "Hospital Admin" ∧
    findAdminProfile baseStore admEve.id = some eveProfile ∧
    staffDoctorHospB.hospitalId ≠ eveProfile.hospitalId ∧
    create_staff_user_endpoint refCryptContext baseStore staffUserTakenEmail
        staffDoctorHospB admEve =
      (.error (.http (.badRequest "Email already registered")), baseStore) :=
  ⟨rfl, by decide, by decide, by decide⟩

/-- C3 amended: a HospitalAdmin's hospital update or staff creation
succeeds only when the admin's profile `hospital_id` equals the
target's; on a mismatch nothing is created or updated and the outcome
is Forbidden (403) — except that staff creation with an
already-registered email fails with the duplicate-email 400 before the
scope check is reached.  Conjuncts: (1) hospital update with an
existing target and a foreign admin is a 403 leaving the store
unchanged; (2) staff creation with a staff role, a fresh email and a
foreign hospital id is a 403 leaving the store unchanged; (3) and (4) a
successful update or creation implies the admin's profile hospital
matches the target. -/
theorem C3_amended_hospital_scope :
    (∀ (db : Store) (hid : Nat) (body : HospitalUpdate) (u : UserRow)
        (hosp : HospitalRow) (ad : HospitalAdminRow),
      u.role = "Hospital Admin" → get_hospital db hid = some hosp →
      findAdminProfile db u.id = some ad → ad.hospitalId ≠ hid →
      update_hospital_endpoint db hid body u =
        (.error (.http (.forbidden "Cannot update another hospital data.")), db)) ∧
    (∀ (ctx : CryptContextModel) (db : Store) (userIn : UserCreate)
        (profileIn : StaffProfileIn) (u : UserRow) (ad : HospitalAdminRow),
      u.role = "Hospital Admin" → userIn.role ≠ "Patient" →
      get_user_by_email db userIn.email = none →
      findAdminProfile db u.id = some ad → profileIn.hospitalId ≠ ad.hospitalId →
      create_staff_user_endpoint ctx db userIn profileIn u =
        (.error (.http (.forbidden "Cannot create staff for another hospital.")), db)) ∧
    (∀ (db : Store) (hid : Nat) (body : HospitalUpdate) (u : UserRow)
        (h2 : HospitalRow) (db2 : Store),
      update_hospital_endpoint db hid body u = (.ok h2, db2) →
      ∃ ad, findAdminProfile db u.id = some ad ∧ ad.hospitalId = hid) ∧
    (∀ (ctx : CryptContextModel) (db : Store) (userIn : UserCreate)
        (profileIn : StaffProfileIn) (u : UserRow) (nu : UserRow) (db2 : Store),
      create_staff_user_endpoint ctx db userIn profileIn u = (.ok nu, db2) →
      ∃ ad, findAdminProfile db u.id = some ad ∧ profileIn.hospitalId = ad.hospitalId) := by
  refine ⟨fun db hid body u hosp ad hrole hh had hne => ?_,
    fun ctx db userIn profileIn u ad hrole hpat hmail had hne => ?_,
    fun db hid body u h2 db2 h => ?_,
    fun ctx db userIn profileIn u nu db2 h => ?_⟩
  · have hrc : role_checker ["Hospital Admin"] u = .ok u :=
      role_checker_pass _ _ (by rw [hrole]; rfl)
    have hb : (ad.hospitalId != hid) = true := bne_iff_ne.mpr hne
    simp [update_hospital_endpoint, hrc, update_hospital, hh, had, hb]
  · have hrc : role_checker ["Hospital Admin"] u = .ok u :=
      role_checker_pass _ _ (by rw [hrole]; rfl)
    have hb : (profileIn.hospitalId != ad.hospitalId) = true := bne_iff_ne.mpr hne
    simp [create_staff_user_endpoint, hrc, create_staff_user, hpat, hmail, had, hb,
      Session.close, Session.start]
  · simp only [update_hospital_endpoint] at h
    split at h
    · simp at h
    · rename_i d heq
      rw [role_checker_ok _ _ _ heq] at h
      simp only [update_hospital] at h
      split at h
      · simp at h
      · rename_i hosp hh
        split at h
        · simp at h
        · rename_i ad had
          split at h
          · simp at h
          · rename_i hbne
            exact ⟨ad, had, by simpa [bne_iff_ne] using hbne⟩
  · simp only [create_staff_user_endpoint] at h
    split at h
    · simp at h
    · rename_i d heq
      rw [role_checker_ok _ _ _ heq] at h
      simp only [create_staff_user] at h
      split at h
      · simp at h
      · split at h
        · simp at h
        · split at h
          · simp at h
          · rename_i ad had
            split at h
            · simp at h
            · rename_i hbne
              exact ⟨ad, had, by simpa [bne_iff_ne] using hbne⟩

/-- Update body used by the C3 witness (same values as hospital 1). -/
def hospUpdateBody : HospitalUpdate := { name := "General Hospital", address := "1 Main St" }

/-- Fresh-email staff body used by the C3 witness. -/
def staffUserNewEmail : UserCreate :=
  { email := "carl@example.com", password := "password123".data, role := "Doctor" }

/-- Staff profile body targeting the admin's own hospital 1. -/
def staffDoctorHospA : StaffProfileIn :=
  .doctorIn { specialty := "Cardio", licenseNumber := "LIC-3", hospitalId := 1 }

/-- The user row a successful staff creation commits for
`staffUserNewEmail`. -/
def newStaffUser : UserRow :=
  { id := 5, email := "carl@example.com"
    passwordHash := '$' :: '2' :: 'b' :: '$' :: "password123".data
    role := "Doctor" }

/-- The store after the successful staff creation of the C3 witness. -/
def storeAfterStaff : Store :=
  { baseStore with
    users := baseStore.users ++ [newStaffUser]
    doctors := baseStore.doctors ++
      [{ userId := 5, hospitalId := 1, specialty := "Cardio", licenseNumber := "LIC-3" }]
    nextUserId := 6 }

/-- C3 amended witness: Eve of hospital 1 is rejected with 403 when
updating hospital 2 and when creating staff for hospital 2 with a
fresh email; her successful update of hospital 1 and successful staff
creation for hospital 1 imply the scope equalities. -/
theorem C3_amended_hospital_scope_witness :
    update_hospital_endpoint baseStore 2 hospUpdateBody admEve =
      (.error (.http (.forbidden "Cannot update another hospital data.")), baseStore) ∧
    create_staff_user_endpoint refCryptContext baseStore staffUserNewEmail
        staffDoctorHospB admEve =
      (.error (.http (.forbidden "Cannot create staff for another hospital.")), baseStore) ∧
    (∃ ad, findAdminProfile baseStore admEve.id = some ad ∧ ad.hospitalId = 1) ∧
    (∃ ad, findAdminProfile baseStore admEve.id = some ad ∧
      staffDoctorHospA.hospitalId = ad.hospitalId) :=
  ⟨C3_amended_hospital_scope.1 baseStore 2 hospUpdateBody admEve hospB eveProfile rfl
      (by decide) (by decide) (by decide),
   C3_amended_hospital_scope.2.1 refCryptContext baseStore staffUserNewEmail staffDoctorHospB
      admEve eveProfile rfl (by decide) (by decide) (by decide) (by decide),
   C3_amended_hospital_scope.2.2.1 baseStore 1 hospUpdateBody admEve hospA baseStore
      (by decide),
   C3_amended_hospital_scope.2.2.2 refCryptContext baseStore staffUserNewEmail staffDoctorHospA
      admEve newStaffUser storeAfterStaff (by decide)⟩

/-! ## Claim C7 -/

/-- C7: only the Patient role can self-register through the open
registration endpoint — any other role in the payload is rejected with
a 400 and the store is untouched, and a successful registration always
carries the Patient role — while the staff-creation endpoint sits
behind `require_role(["Hospital Admin"])`, so a Patient-authenticated
request is rejected with a 403 before the handler body runs. -/
theorem C7_registration_and_staff_creation_gates :
    (∀ (ctx : CryptContextModel) (db : Store) (userIn : UserCreate)
        (profileIn : PatientProfileCreate),
      userIn.role ≠ "Patient" →
      register_user ctx db userIn profileIn =
        (.error (.http (.badRequest "Public registration is only allowed for the Patient role.")),
          db)) ∧
    (∀ (ctx : CryptContextModel) (db : Store) (userIn : UserCreate)
        (profileIn : PatientProfileCreate) (nu : UserRow) (db2 : Store),
      register_user ctx db userIn profileIn = (.ok nu, db2) →
      userIn.role = "Patient" ∧ nu.role = "Patient") ∧
    (∀ (ctx : CryptContextModel) (db : Store) (userIn : UserCreate)
        (profileIn : StaffProfileIn) (u : UserRow),
      u.role = "Patient" →
      create_staff_user_endpoint ctx db userIn profileIn u =
        (.error (.http (.forbidden "User role is not authorized for this action.")), db)) := by
  refine ⟨fun ctx db userIn profileIn hrole => ?_,
    fun ctx db userIn profileIn nu db2 h => ?_,
    fun ctx db userIn profileIn u hrole => ?_⟩
  · have hb : (userIn.role != "Patient") = true := bne_iff_ne.mpr hrole
    simp [register_user, hb, Session.close, Session.start]
  · simp only [register_user] at h
    split at h
    · simp at h
    · rename_i hbne
      have hrole : userIn.role = "Patient" := by simpa [bne_iff_ne] using hbne
      split at h
      · simp at h
      · simp only [create_user, hrole, beq_self_eq_true, if_true] at h
        injection h with h1 h2
        injection h1 with h1
        exact ⟨hrole, by rw [← h1]⟩
  · have hcc : ¬ ((["Hospital Admin"] : List String).contains u.role = true) := by
      rw [hrole]; decide
    have hrc : role_checker ["Hospital Admin"] u =
        .error (.http (.forbidden "User role is not authorized for this action.")) := by
      unfold role_checker
      rw [if_neg hcc]
    simp [create_staff_user_endpoint, hrc]

/-- Registration body used by the C7 and C8 witnesses. -/
def carolUserIn : UserCreate :=
  { email := "carol@example.com", password := "password123".data, role := "Patient" }

/-- Patient profile body used by the C7 and C8 witnesses. -/
def carolProfileIn : PatientProfileCreate := { firstName := "Carol", lastName := "King" }

/-- The user row a successful registration of Carol commits. -/
def carolUser : UserRow :=
  { id := 5, email := "carol@example.com"
    passwordHash := '$' :: '2' :: 'b' :: '$' :: "password123".data
    role := "Patient" }

/-- The store after the successful registration of Carol. -/
def storeAfterCarol : Store :=
  { baseStore with
    users := baseStore.users ++ [carolUser]
    patientProfiles := baseStore.patientProfiles ++
      [{ userId := 5, firstName := "Carol", lastName := "King" }]
    nextUserId := 6 }

/-- C7 witness: a Doctor-role payload is rejected by open registration
with the 400 and an unchanged store; registering Carol succeeds with
the Patient role on both the payload and the stored row; Bob the
Patient is rejected by the staff-creation endpoint with a 403. -/
theorem C7_registration_and_staff_creation_gates_witness :
    register_user refCryptContext baseStore staffUserNewEmail carolProfileIn =
      (.error (.http (.badRequest "Public registration is only allowed for the Patient role.")),
        baseStore) ∧
    (carolUserIn.role = "Patient" ∧ carolUser.role = "Patient") ∧
    create_staff_user_endpoint refCryptContext baseStore staffUserNewEmail staffDoctorHospA
        patBob =
      (.error (.http (.forbidden "User role is not authorized for this action.")), baseStore) :=
  ⟨C7_registration_and_staff_creation_gates.1 refCryptContext baseStore staffUserNewEmail
      carolProfileIn (by decide),
   C7_registration_and_staff_creation_gates.2.1 refCryptContext baseStore carolUserIn
      carolProfileIn carolUser storeAfterCarol (by decide),
   C7_registration_and_staff_creation_gates.2.2 refCryptContext baseStore staffUserNewEmail
      staffDoctorHospA patBob rfl⟩

/-! ## Claim C8 -/

/-- Does the store hold the role-matching profile row for this user?
(The invariant the spec calls identity+profile atomicity.) -/
def hasMatchingProfile (db : Store) (u : UserRow) : Bool :=
  if u.role == "Patient" then (findPatientProfile db u.id).isSome
  else if u.role == "Doctor" then (findDoctorProfile db u.id).isSome
  else if u.role == "Hospital Admin" then (findAdminProfile db u.id).isSome
  else false

/-- C8: identity-plus-profile creation through `crud.user.create_user`
under `get_db`'s session lifecycle is atomic: on every error outcome
(including the invalid-role `ValueError` path, which raises after the
user row was added and flushed but before commit) the committed store
holds exactly the rows it held before, and on success the committed
store holds both the new user row and its role-matching profile row. -/
theorem C8_identity_profile_atomicity :
    (∀ (ctx : CryptContextModel) (db : Store) (user : UserCreate) (pd : ProfileData)
        (e : PyError) (db2 : Store),
      create_user_via_get_db ctx db user pd = (.error e, db2) →
      db2.users = db.users ∧ db2.patientProfiles = db.patientProfiles ∧
      db2.doctors = db.doctors ∧ db2.hospitalAdmins = db.hospitalAdmins) ∧
    (∀ (ctx : CryptContextModel) (db : Store) (user : UserCreate) (pd : ProfileData)
        (nu : UserRow) (db2 : Store),
      create_user_via_get_db ctx db user pd = (.ok nu, db2) →
      db2.users = db.users ++ [nu] ∧ hasMatchingProfile db2 nu = true) := by
  constructor
  · intro ctx db user pd e db2 h
    simp only [create_user_via_get_db, create_user] at h
    split at h
    · split at h
      · simp at h
      · injection h with h1 h2
        subst h2
        exact ⟨rfl, rfl, rfl, rfl⟩
    · split at h
      · split at h
        · simp at h
        · injection h with h1 h2
          subst h2
          exact ⟨rfl, rfl, rfl, rfl⟩
      · split at h
        · split at h
          · simp at h
          · injection h with h1 h2
            subst h2
            exact ⟨rfl, rfl, rfl, rfl⟩
        · injection h with h1 h2
          subst h2
          exact ⟨rfl, rfl, rfl, rfl⟩
  · intro ctx db user pd nu db2 h
    simp only [create_user_via_get_db, create_user] at h
    split at h
    · rename_i hpat
      split at h
      · injection h with h1 h2
        injection h1 with h1
        subst h2
        subst h1
        refine ⟨rfl, ?_⟩
        simp only [hasMatchingProfile]
        rw [if_pos hpat]
        apply find?_append_isSome
        simp [List.find?]
      · simp at h
    · rename_i hnpat
      split at h
      · rename_i hdoc
        split at h
        · injection h with h1 h2
          injection h1 with h1
          subst h2
          subst h1
          refine ⟨rfl, ?_⟩
          simp only [hasMatchingProfile]
          rw [if_neg (by simp [hnpat]), if_pos hdoc]
          apply find?_append_isSome
          simp [List.find?]
        · simp at h
      · rename_i hndoc
        split at h
        · rename_i hadm
          split at h
          · injection h with h1 h2
            injection h1 with h1
            subst h2
            subst h1
            refine ⟨rfl, ?_⟩
            simp only [hasMatchingProfile]
            rw [if_neg (by simp [hnpat]), if_neg (by simp [hndoc]), if_pos hadm]
            apply find?_append_isSome
            simp [List.find?]
          · simp at h
        · simp at h

/-- Registration payload with a role outside the closed set, driving
`crud.user.create_user` into its invalid-role `ValueError` path. -/
def badRoleUserIn : UserCreate :=
  { email := "zed@example.com", password := "password123".data, role := "Owner" }

/-- The store after the failed bad-role creation: only the id sequence
advanced (the flushed user row was rolled back on close). -/
def storeAfterBadRole : Store := { baseStore with nextUserId := 6 }

/-- C8 witness: the invalid-role path commits no user row (tables are
unchanged), and the successful registration of Carol commits both the
user row and its patient profile row. -/
theorem C8_identity_profile_atomicity_witness :
    (storeAfterBadRole.users = baseStore.users ∧
      storeAfterBadRole.patientProfiles = baseStore.patientProfiles ∧
      storeAfterBadRole.doctors = baseStore.doctors ∧
      storeAfterBadRole.hospitalAdmins = baseStore.hospitalAdmins) ∧
    (storeAfterCarol.users = baseStore.users ++ [carolUser] ∧
      hasMatchingProfile storeAfterCarol carolUser = true) :=
  ⟨C8_identity_profile_atomicity.1 refCryptContext baseStore badRoleUserIn
      (.patientData carolProfileIn) (.valueError "Invalid user role.") storeAfterBadRole
      (by decide),
   C8_identity_profile_atomicity.2 refCryptContext baseStore carolUserIn
      (.patientData carolProfileIn) carolUser storeAfterCarol (by decide)⟩

/-! ## Claim C9 -/

/-- C9: the profile dispatch returns None for a role outside the three
known roles, as claimed — but for a known role whose profile row is
missing it does not return None: `Schema.model_validate(None)` raises a
pydantic `ValidationError`, an unhandled exception, so the
profile-not-found 404 branch of the caller is unreachable for known
roles.  Evaluated on the failing input: Alice has role Patient and no
patient profile row, and both `get_user_profile` and the /users/me/profile
endpoint raise instead of returning the distinguishable not-found
outcome. -/
theorem C9_profile_dispatch_raises_on_missing_row :
    (∀ (db : Store) (u : UserRow),
      u.role ≠ "Patient" → u.role ≠ "Doctor" → u.role ≠ "Hospital Admin" →
      get_user_profile db u = .ok none) ∧
    patAlice.role = "Patient" ∧
    findPatientProfile storeNoAliceProfile patAlice.id = none ∧
    get_user_profile storeNoAliceProfile patAlice = .error .validationError ∧
    read_current_user_profile storeNoAliceProfile patAlice = .error .validationError := by
  refine ⟨fun db u h1 h2 h3 => ?_, rfl, by decide, by decide, by decide⟩
  have b1 : (u.role == "Patient") = false := beq_eq_false_iff_ne.mpr h1
  have b2 : (u.role == "Doctor") = false := beq_eq_false_iff_ne.mpr h2
  have b3 : (u.role == "Hospital Admin") = false := beq_eq_false_iff_ne.mpr h3
  simp [get_user_profile, b1, b2, b3]

/-- An identity whose role lies outside the three known roles. -/
def ownerUser : UserRow :=
  { id := 7, email := "own@example.com", passwordHash := [], role := "Owner" }

/-- C9 witness: the unknown-role branch of the dispatch returns None. -/
theorem C9_profile_dispatch_raises_on_missing_row_witness :
    get_user_profile baseStore ownerUser = .ok none :=
  C9_profile_dispatch_raises_on_missing_row.1 baseStore ownerUser
    (by decide) (by decide) (by decide)

/-! ## Claim C10 -/

/-- C10: record creation, hospital update and staff creation read the
caller's profile row (`doctor_details.hospital_id`,
`admin_details.hospital_id`) without a None guard: for an authenticated
Doctor or Hospital Admin whose profile row is absent — once the guards
that run earlier (patient existence, hospital existence, role and email
checks) pass — each operation raises the unhandled `AttributeError` of
a None dereference, which is not an outcome of the specified error
taxonomy (last conjunct). -/
theorem C10_missing_profile_rows_crash :
    (∀ (db : Store) (recordIn : MedicalRecordCreate) (u : UserRow),
      u.role = "Doctor" → (findPatientProfile db recordIn.patientId).isSome = true →
      findDoctorProfile db u.id = none →
      create_record_endpoint db recordIn u = (.error .attributeErrorNoneType, db)) ∧
    (∀ (db : Store) (hid : Nat) (body : HospitalUpdate) (u : UserRow) (hosp : HospitalRow),
      u.role = "Hospital Admin" → get_hospital db hid = some hosp →
      findAdminProfile db u.id = none →
      update_hospital_endpoint db hid body u = (.error .attributeErrorNoneType, db)) ∧
    (∀ (ctx : CryptContextModel) (db : Store) (userIn : UserCreate)
        (profileIn : StaffProfileIn) (u : UserRow),
      u.role = "Hospital Admin" → userIn.role ≠ "Patient" →
      get_user_by_email db userIn.email = none → findAdminProfile db u.id = none →
      create_staff_user_endpoint ctx db userIn profileIn u =
        (.error .attributeErrorNoneType, db)) ∧
    (∀ e : HttpError, PyError.attributeErrorNoneType ≠ PyError.http e) := by
  refine ⟨fun db recordIn u hrole hps hdoc => ?_,
    fun db hid body u hosp hrole hh hadm => ?_,
    fun ctx db userIn profileIn u hrole hpat hmail hadm => ?_,
    fun e => by simp⟩
  · have hrc : role_checker ["Doctor"] u = .ok u :=
      role_checker_pass _ _ (by rw [hrole]; rfl)
    obtain ⟨p, hp⟩ := Option.isSome_iff_exists.mp hps
    simp [create_record_endpoint, hrc, create_record, hp, hdoc]
  · have hrc : role_checker ["Hospital Admin"] u = .ok u :=
      role_checker_pass _ _ (by rw [hrole]; rfl)
    simp [update_hospital_endpoint, hrc, update_hospital, hh, hadm]
  · have hrc : role_checker ["Hospital Admin"] u = .ok u :=
      role_checker_pass _ _ (by rw [hrole]; rfl)
    have hb : (userIn.role == "Patient") = false := beq_eq_false_iff_ne.mpr hpat
    simp [create_staff_user_endpoint, hrc, create_staff_user, hb, hmail, hadm,
      Session.close, Session.start]

/-- C10 witness: Dana the Doctor with no doctor profile row crashes
record creation; Eve the admin with no admin profile row crashes both
the hospital update and the staff creation; and the AttributeError is
distinct from the 404 taxonomy outcome. -/
theorem C10_missing_profile_rows_crash_witness :
    create_record_endpoint storeNoDoctorProfile recBody docDana =
      (.error .attributeErrorNoneType, storeNoDoctorProfile) ∧
    update_hospital_endpoint storeNoAdminProfile 1 hospUpdateBody admEve =
      (.error .attributeErrorNoneType, storeNoAdminProfile) ∧
    create_staff_user_endpoint refCryptContext storeNoAdminProfile staffUserNewEmail
        staffDoctorHospA admEve = (.error .attributeErrorNoneType, storeNoAdminProfile) ∧
    PyError.attributeErrorNoneType ≠ PyError.http (.notFound "Patient not found") :=
  ⟨C10_missing_profile_rows_crash.1 storeNoDoctorProfile recBody docDana rfl
      (by decide) (by decide),
   C10_missing_profile_rows_crash.2.1 storeNoAdminProfile 1 hospUpdateBody admEve hospA rfl
      (by decide) (by decide),
   C10_missing_profile_rows_crash.2.2.1 refCryptContext storeNoAdminProfile staffUserNewEmail
      staffDoctorHospA admEve rfl (by decide) (by decide) (by decide),
   C10_missing_profile_rows_crash.2.2.2 (.notFound "Patient not found")⟩

end Uprm
